import Mathlib

/-!
# Verification of the zizang docsify document generator

Shallow embedding of `src/js/generate-docs-final.js` (and, where a claim
cites it, the variant script embedded in `src/js/USAGE_EXAMPLE.md`).

Modelling conventions:
* The file system is a finite tree (`FSNode`).  Each directory entry carries
  a `statOk` flag (`fs.statSync` on that entry succeeds), each directory a
  `listOk` flag (`fs.readdirSync` succeeds), and each file a `readOk` flag
  (`fs.readFileSync` succeeds) plus its byte count.  A thrown filesystem
  exception is modelled as `Except.error ()` where the JS code does not
  catch it, and as the zero-valued default where it does.
* Paths are lists of name segments relative to the scan root; `path.resolve`
  becomes list append and `path.relative(a, b)` (followed by the script's
  backslash-to-slash normalisation) becomes `pathRelative` on segment lists.
* JS numbers are modelled with exact arithmetic over `Nat`.  For
  `Math.round(size / 1024 * 100)` the double computation is exact for every
  size below 2^53 / 25, so the exact rational model agrees with the float one
  on all representable file sizes.
* The decimal rendering of `k / 100` (JS number-to-string) is `renderCenti`:
  the minimal decimal form with trailing zeros dropped.
-/

/-- JS `Math.round (p / q)` for nonnegative `p / q`: round half away from
zero, i.e. `⌊(p + q/2) / q⌋`, written without fractions as `(2p + q) / 2q`. -/
def jsRound (p q : Nat) : Nat := (2 * p + q) / (2 * q)

/-- Decimal rendering of the JS number `k / 100`, as produced by JS
number-to-string: minimal decimal digits, trailing zeros dropped. -/
def renderCenti (k : Nat) : String :=
  let intPart := k / 100
  let frac := k % 100
  if frac == 0 then toString intPart
  else if frac % 10 == 0 then toString intPart ++ "." ++ toString (frac / 10)
  else if frac < 10 then toString intPart ++ ".0" ++ toString frac
  else toString intPart ++ "." ++ toString frac

/-- The size-formatting rule shared by `getFileSize` and `getDirectorySize`
in `generate-docs-final.js`: `size + ' B'` below 1024, otherwise
`Math.round(size / 1024 * 100) / 100 + ' KB'` below 1024², otherwise
`Math.round(size / 1024² * 100) / 100 + ' MB'`. -/
def formatSize (size : Nat) : String :=
  if size < 1024 then toString size ++ " B"
  else if size < 1024 * 1024 then renderCenti (jsRound (size * 100) 1024) ++ " KB"
  else renderCenti (jsRound (size * 100) (1024 * 1024)) ++ " MB"

mutual
/-- A file-system node: a regular file (byte count, whether
`readFileSync` succeeds) or a directory (whether `readdirSync` succeeds,
ordered entry list as `readdirSync` would return it). -/
inductive FSNode where
  | file (bytes : Nat) (readOk : Bool)
  | dir (listOk : Bool) (entries : List FSEntry)

/-- One directory entry: its basename, whether `statSync` on it succeeds,
and the node behind it. -/
inductive FSEntry where
  | mk (name : String) (statOk : Bool) (node : FSNode)
end

def FSEntry.name : FSEntry → String
  | .mk n _ _ => n

def FSEntry.statOk : FSEntry → Bool
  | .mk _ s _ => s

def FSEntry.node : FSEntry → FSNode
  | .mk _ _ n => n

def FSNode.isFile : FSNode → Bool
  | .file _ _ => true
  | .dir _ _ => false

def FSNode.isDir : FSNode → Bool
  | .file _ _ => false
  | .dir _ _ => true

mutual
/-- Recursive byte size of a subtree, mirroring the loop body of
`getDirectorySize`: directories recurse (each recursive call catches its own
errors), everything else contributes `stat.size`. -/
def sumEntrySizes : List FSEntry → Nat
  | [] => 0
  | .mk _ _ n :: rest =>
    (match n with
     | .file bytes _ => bytes
     | .dir _ _ => getDirectorySizeNode n) + sumEntrySizes rest

/-- `getDirectorySize` on the node a path resolves to, returning only the
raw total.  `readdirSync` on a file throws `ENOTDIR` and a failed
`statSync` on any direct entry throws out of the `forEach`; both are caught
by the surrounding `try` and collapse the whole call to `0`. -/
def getDirectorySizeNode : FSNode → Nat
  | .file _ _ => 0
  | .dir listOk entries =>
    if listOk && entries.all FSEntry.statOk then sumEntrySizes entries else 0
end

-- quick computation sanity check (structural recursion must reduce)
example :
    getDirectorySizeNode
      (.dir true [.mk "a.md" true (.file 500 true),
                  .mk "sub" true (.dir true [.mk "b.md" true (.file 10 true)])]) = 510 := rfl

/-- The `{size, formatted}` record returned by `getFileSize` and
`getDirectorySize`. -/
structure SizeInfo where
  size : Nat
  formatted : String
deriving DecidableEq

/-- `getDirectorySize(dirPath)`.  The argument is the node the path resolves
to (`none` = path does not exist, so `readdirSync` throws `ENOENT`); every
failure inside the `try` collapses to `{size: 0, formatted: '0 B'}`. -/
def getDirectorySize : Option FSNode → SizeInfo
  | none => ⟨0, "0 B"⟩
  | some (.file _ _) => ⟨0, "0 B"⟩
  | some (.dir listOk entries) =>
    if listOk && entries.all FSEntry.statOk then
      let totalSize := sumEntrySizes entries
      ⟨totalSize, formatSize totalSize⟩
    else ⟨0, "0 B"⟩

/-- `getFileSize(filePath)`: `statSync` the target and format its size; a
thrown error (missing path or failing stat) is caught and yields
`{size: 0, formatted: '0 B'}`.  The script only ever calls it on document
files; for a directory target `stats.size` is platform-dependent and unused,
modelled as `0`. -/
def getFileSize : Option FSEntry → SizeInfo
  | none => ⟨0, "0 B"⟩
  | some (.mk _ statOk n) =>
    if statOk then
      match n with
      | .file bytes _ => ⟨bytes, formatSize bytes⟩
      | .dir _ _ => ⟨0, "0 B"⟩
    else ⟨0, "0 B"⟩

/-- Index (in characters) of the last `'.'` of the name, accumulator style. -/
def lastDotIdx : List Char → Nat → Option Nat → Option Nat
  | [], _, acc => acc
  | c :: cs, i, acc => lastDotIdx cs (i + 1) (if c == '.' then some i else acc)

/-- Node's `path.extname` on a basename: the suffix from the last `'.'`,
except that a dot in first position (hidden files such as `".md"`) yields
the empty extension. -/
def extname (name : String) : String :=
  match lastDotIdx name.toList 0 none with
  | none => ""
  | some 0 => ""
  | some i => String.mk (name.toList.drop i)

/-- Node's `path.basename(file, ext)`: strips `ext` when it is a proper
suffix (the whole name is never stripped to nothing). -/
def basenameStripExt (f ext : String) : String :=
  if List.isSuffixOf ext.toList f.toList && f != ext then
    String.mk (f.toList.take (f.toList.length - ext.toList.length))
  else f

-- `extname` sanity checks against Node semantics
example : extname "a.md" = ".md" := rfl
example : extname "_sidebar.md" = ".md" := rfl
example : extname ".md" = "" := rfl
example : extname "noext" = "" := rfl
example : extname "a.tar.gz" = ".gz" := rfl

/-- `estimateWordCount(filePath)`: read the file and return
`Math.round(utf8ByteLength / 3)` (for valid UTF-8 content the byte length of
the decoded-and-reencoded string equals the file's byte count); for
nonnegative `b`, `Math.round(b / 3) = (b + 1) / 3` in integer division.  A
thrown read error (missing path, unreadable file, or a directory target,
which `readFileSync` rejects with `EISDIR`) is caught and yields `0`. -/
def estimateWordCount : Option FSEntry → Nat
  | none => 0
  | some (.mk _ _ n) =>
    match n with
    | .file bytes readOk => if readOk then (bytes + 1) / 3 else 0
    | .dir _ _ => 0

mutual
/-- Loop body of `estimateDirectoryWordCount`: directories recurse, `.md`
files contribute their `estimateWordCount`, other files contribute
nothing. -/
def sumEntryWordCounts : List FSEntry → Nat
  | [] => 0
  | .mk nm st n :: rest =>
    (match n with
     | .file _ _ =>
       if extname nm == ".md" then estimateWordCount (some (.mk nm st n)) else 0
     | .dir _ _ => estimateDirectoryWordCountNode n) + sumEntryWordCounts rest

/-- `estimateDirectoryWordCount` on the node a path resolves to; any error
thrown inside its `try` (`readdirSync` failing, or `statSync` failing on a
direct entry) collapses the whole call to `0`. -/
def estimateDirectoryWordCountNode : FSNode → Nat
  | .file _ _ => 0
  | .dir listOk entries =>
    if listOk && entries.all FSEntry.statOk then sumEntryWordCounts entries else 0
end

/-- `estimateDirectoryWordCount(dirPath)` with `none` for a nonexistent
path (`readdirSync` throws `ENOENT`, caught, `0`). -/
def estimateDirectoryWordCount : Option FSNode → Nat
  | none => 0
  | some n => estimateDirectoryWordCountNode n

mutual
/-- Loop body of `countMarkdownFiles`: directories recurse, files count `1`
exactly when their extension is `.md`.  Reserved names are NOT filtered
here. -/
def sumEntryCounts : List FSEntry → Nat
  | [] => 0
  | .mk nm _ n :: rest =>
    (match n with
     | .file _ _ => if extname nm == ".md" then 1 else 0
     | .dir _ _ => countMarkdownFilesNode n) + sumEntryCounts rest

/-- `countMarkdownFiles` on the node a path resolves to; any error thrown
inside its `try` collapses the whole call to `0`. -/
def countMarkdownFilesNode : FSNode → Nat
  | .file _ _ => 0
  | .dir listOk entries =>
    if listOk && entries.all FSEntry.statOk then sumEntryCounts entries else 0
end

/-- `countMarkdownFiles(dirPath)` with `none` for a nonexistent path. -/
def countMarkdownFiles : Option FSNode → Nat
  | none => 0
  | some n => countMarkdownFilesNode n

-- aggregate sanity checks
example : countMarkdownFiles (some (.dir true [.mk "README.md" true (.file 7 true)])) = 1 := rfl
example : estimateWordCount (some (.mk "a.md" true (.file 10 true))) = 3 := rfl
example : estimateWordCount (some (.mk "a.md" true (.file 9 true))) = 3 := rfl
example : estimateWordCount (some (.mk "a.md" true (.file 0 true))) = 0 := rfl

/-- `config.ignoreFiles`: the reserved filenames skipped by the scanner. -/
def ignoreFiles : List String := ["_sidebar.md", "README.md", "_navbar.md", "_coverpage.md"]

/-- `config.ignoreFiles.includes(file)`. -/
def isIgnored (name : String) : Bool := ignoreFiles.contains name

/-- Resolving a basename against a directory listing (`path.resolve(dir, f)`
followed by a syscall on the result): the first entry with that name. -/
def findEntry : List FSEntry → String → Option FSEntry
  | [], _ => none
  | e :: rest, nm => if e.name == nm then some e else findEntry rest nm

/-- Stable insertion of a string into a sorted list, comparing like the JS
default `Array.sort` comparator (lexicographic; identical to Lean's
`compare` on `String` for the Basic-Multilingual-Plane names involved). -/
def insertSorted (x : String) : List String → List String
  | [] => [x]
  | y :: ys => if compare x y == Ordering.gt then y :: insertSorted x ys else x :: y :: ys

/-- `Array.prototype.sort()` on a list of names. -/
def sortStrings : List String → List String
  | [] => []
  | x :: xs => insertSorted x (sortStrings xs)

/-- A node of the in-memory tree built by `getDirectoryStructure`:
`{name, path, type: 'file', depth, size, formattedSize, wordCount}` or
`{name, path, type: 'directory', children, depth}`.  Paths are segment lists
relative to the scan root. -/
inductive DocNode where
  | file (name : String) (path : List String) (depth : Nat)
      (size : Nat) (formattedSize : String) (wordCount : Nat)
  | dir (name : String) (path : List String) (depth : Nat) (children : List DocNode)

def DocNode.name : DocNode → String
  | .file n _ _ _ _ _ => n
  | .dir n _ _ _ => n

def DocNode.path : DocNode → List String
  | .file _ p _ _ _ _ => p
  | .dir _ p _ _ => p

def DocNode.isFile : DocNode → Bool
  | .file _ _ _ _ _ _ => true
  | .dir _ _ _ _ => false

def DocNode.isDir : DocNode → Bool
  | .file _ _ _ _ _ _ => false
  | .dir _ _ _ _ => true

def DocNode.children : DocNode → List DocNode
  | .file _ _ _ _ _ _ => []
  | .dir _ _ _ cs => cs

def DocNode.wordCount : DocNode → Nat
  | .file _ _ _ _ _ w => w
  | .dir _ _ _ _ => 0

def DocNode.formattedSize : DocNode → String
  | .file _ _ _ _ f _ => f
  | .dir _ _ _ _ => ""

/-- The file nodes `getDirectoryStructure` pushes first: the `.md` names
(reserved names already skipped), sorted, each re-resolved against the
listing and measured via `getFileSize` / `estimateWordCount`. -/
def scanFileChildren (entries : List FSEntry) (ppath : List String) (depth : Nat) : List DocNode :=
  let mdNames := (entries.filter
    (fun e => !isIgnored e.name && e.node.isFile && extname e.name == ".md")).map FSEntry.name
  (sortStrings mdNames).map (fun f =>
    DocNode.file (basenameStripExt f ".md") (ppath ++ [f]) (depth + 1)
      (getFileSize (findEntry entries f)).size
      (getFileSize (findEntry entries f)).formatted
      (estimateWordCount (findEntry entries f)))

/-- Stable insertion for `(name, scanned child)` pairs, by name. -/
def insertSortedPair (x : String × DocNode) : List (String × DocNode) → List (String × DocNode)
  | [] => [x]
  | y :: ys => if compare x.fst y.fst == Ordering.gt then y :: insertSortedPair x ys else x :: y :: ys

/-- Sorting the scanned sub-directories by name (JS sorts the name array
before recursing; scanning is per-child, so scanning first and sorting the
results is the same function). -/
def sortPairs : List (String × DocNode) → List (String × DocNode)
  | [] => []
  | x :: xs => insertSortedPair x (sortPairs xs)

mutual
/-- `getDirectoryStructure(dir, depth)` on the directory node `dir` resolves
to.  `readdirSync` on a file throws `ENOTDIR`; the function has no
`try`/`catch`, so a failing `readdirSync` or a failing `statSync` on any
non-reserved entry propagates to the caller (`Except.error ()`). -/
def getDirectoryStructureNode (nm : String) (ppath : List String) (depth : Nat) :
    FSNode → Except Unit DocNode
  | .file _ _ => Except.error ()
  | .dir listOk entries =>
    if listOk && (entries.filter (fun e => !isIgnored e.name)).all FSEntry.statOk then
      match scanSubdirEntries ppath depth entries with
      | Except.error err => Except.error err
      | Except.ok subs =>
        Except.ok (DocNode.dir nm ppath depth
          (scanFileChildren entries ppath depth ++ (sortPairs subs).map Prod.snd))
    else Except.error ()

/-- Recursive scan of the non-reserved directory entries, in listing order;
the first child whose scan throws aborts the whole scan. -/
def scanSubdirEntries (ppath : List String) (depth : Nat) :
    List FSEntry → Except Unit (List (String × DocNode))
  | [] => Except.ok []
  | .mk nm _ n :: rest =>
    if !isIgnored nm && n.isDir then
      match getDirectoryStructureNode nm (ppath ++ [nm]) (depth + 1) n with
      | Except.error err => Except.error err
      | Except.ok d =>
        match scanSubdirEntries ppath depth rest with
        | Except.error err => Except.error err
        | Except.ok ds => Except.ok ((nm, d) :: ds)
    else scanSubdirEntries ppath depth rest
end

/-- `getDirectoryStructure(dir, depth)` on a path: a missing path is
reported (`console.error`) and yields the empty node — a non-fatal
degradation, unlike the uncaught errors above. -/
def getDirectoryStructure (nm : String) (ppath : List String) (depth : Nat) :
    Option FSNode → Except Unit DocNode
  | none => Except.ok (DocNode.dir nm ppath depth [])
  | some node => getDirectoryStructureNode nm ppath depth node

/-- Resolving a segment path against the scanned tree's root node, as the
file system does when an aggregate re-traverses from an absolute path. -/
def resolve : FSNode → List String → Option FSNode
  | node, [] => some node
  | .dir _ entries, seg :: rest =>
    (match findEntry entries seg with
     | some e => resolve e.node rest
     | none => none)
  | .file _ _, _ :: _ => none

/-- Segment form of Node's `path.relative(fromP, toP)`: drop the common
prefix, one `..` per remaining source segment, then the remaining target
segments. -/
def relSegments : List String → List String → List String
  | [], ts => ts
  | f :: fs, [] => (f :: fs).map (fun _ => "..")
  | f :: fs, t :: ts =>
    if f == t then relSegments fs ts else (f :: fs).map (fun _ => "..") ++ t :: ts

/-- `path.relative(fromP, toP).replace(/\\/g, '/')`: the script's link
computation, already normalised to forward slashes because segments are
joined with `'/'`. -/
def pathRelative (fromP toP : List String) : String :=
  String.intercalate "/" (relSegments fromP toP)

-- scanner sanity checks
example :
    getDirectoryStructure "d" [] 0
      (some (.dir true [.mk "README.md" true (.file 10 true)])) =
    Except.ok (DocNode.dir "d" [] 0 []) := rfl
example :
    getDirectoryStructure "d" [] 0
      (some (.dir true [.mk "b.md" true (.file 10 true), .mk "a.md" true (.file 500 true)])) =
    Except.ok (DocNode.dir "d" [] 0
      [DocNode.file "a" ["a.md"] 1 500 "500 B" 167,
       DocNode.file "b" ["b.md"] 1 10 "10 B" 3]) := rfl
example :
    getDirectoryStructure "d" [] 0 (some (.dir true [.mk "sub" true (.dir false [])])) =
    Except.error () := rfl
example : pathRelative [] ["a", "b", "f.md"] = "a/b/f.md" := rfl
example : pathRelative ["a", "b"] ["a", "b", "f.md"] = "f.md" := rfl
example : pathRelative ["a", "c"] ["a", "b"] = "../b" := rfl

/-!
## Page renderers

Each JS renderer builds its page by successive `content += chunk`
statements; a rendered page is modelled as the list of those chunks (the
page text is their concatenation, which no claim needs).
-/

/-- The file table row shared verbatim by `generateNormalReadmeContent` and
`generateSpecifiedPathReadmeContent`:
`| [name](relative link) | wordCount 字 | formattedSize |`. -/
def fileRowChunk (basePath : List String) (f : DocNode) : String :=
  "| [" ++ f.name ++ "](" ++ pathRelative basePath f.path ++ ") | " ++
    toString f.wordCount ++ " 字 | " ++ f.formattedSize ++ " |\n"

/-- `generateNormalReadmeContent(structure, basePath)`: heading, counts
sentence, optional direct-file table, optional sub-directory list, fixed
footer. -/
def generateNormalReadmeContent (st : DocNode) (basePath : List String) : List String :=
  let files := st.children.filter DocNode.isFile
  let directories := st.children.filter DocNode.isDir
  ["# " ++ st.name ++ "\n\n",
   "本目录包含 " ++ toString files.length ++ " 个文档文件和 " ++
     toString directories.length ++ " 个子目录。\n\n"]
  ++ (if files.length > 0 then
        ["## 文件列表\n\n",
         "| 文件名称 | 预估字数 | 大小 |\n",
         "|---------|---------|------|\n"]
        ++ files.map (fileRowChunk basePath) ++ ["\n"]
      else [])
  ++ (if directories.length > 0 then
        ["## 子目录\n\n"]
        ++ directories.map (fun dir =>
             "- [" ++ dir.name ++ "](" ++ pathRelative basePath dir.path ++ "/README.md)\n")
        ++ ["\n"]
      else [])
  ++ ["---\n\n", "> 本README文件由系统自动生成，请勿手动修改。\n"]

/-- The per-sub-directory table of `generateSpecifiedPathReadmeContent` in
`generate-docs-final.js`: re-scan the sub-directory (`getDirectoryStructure`
there runs without a `try`, so its exceptions propagate out of the
renderer) and list its direct files — and only its direct files. -/
def specifiedSubdirTable (fs : FSNode) (basePath : List String) (dir : DocNode) :
    Except Unit (List String) :=
  match getDirectoryStructure dir.name dir.path 0 (resolve fs dir.path) with
  | Except.error err => Except.error err
  | Except.ok subdirStructure =>
    let files := subdirStructure.children.filter DocNode.isFile
    Except.ok (["## " ++ dir.name ++ "\n\n",
                "| 文件名称 | 预估字数 | 大小 |\n",
                "|----------|----------|------|\n"]
      ++ files.map (fileRowChunk basePath) ++ ["\n"])

/-- The `directories.forEach` loop of `generateSpecifiedPathReadmeContent`,
concatenating the per-sub-directory tables; the first thrown re-scan aborts
the renderer. -/
def specifiedSubdirTables (fs : FSNode) (basePath : List String) :
    List DocNode → Except Unit (List String)
  | [] => Except.ok []
  | d :: ds =>
    match specifiedSubdirTable fs basePath d with
    | Except.error err => Except.error err
    | Except.ok t =>
      match specifiedSubdirTables fs basePath ds with
      | Except.error err => Except.error err
      | Except.ok ts => Except.ok (t ++ ts)

/-- `generateSpecifiedPathReadmeContent(structure, basePath)` from
`generate-docs-final.js`: heading, counts sentence, overview table whose
aggregates re-traverse the file system from `st.path`, then one
sub-table per immediate sub-directory, fixed footer. -/
def generateSpecifiedPathReadmeContent (fs : FSNode) (st : DocNode)
    (basePath : List String) : Except Unit (List String) :=
  let fileCount := (st.children.filter DocNode.isFile).length
  let dirCount := (st.children.filter DocNode.isDir).length
  let totalWordCount := estimateDirectoryWordCount (resolve fs st.path)
  let totalSize := getDirectorySize (resolve fs st.path)
  let totalBookCount := countMarkdownFiles (resolve fs st.path)
  match specifiedSubdirTables fs basePath (st.children.filter DocNode.isDir) with
  | Except.error err => Except.error err
  | Except.ok tables =>
    Except.ok (["# " ++ st.name ++ "\n\n",
      "本目录包含 " ++ toString fileCount ++ " 个文档文件和 " ++
        toString dirCount ++ " 个子目录。\n\n",
      "## 总览\n\n",
      "| 名称 | 书籍数 | 预估字数 | 大小 |\n",
      "|------|--------|----------|------|\n",
      "| " ++ st.name ++ " | " ++ toString totalBookCount ++ " | " ++
        toString totalWordCount ++ " 字 | " ++ totalSize.formatted ++ " |\n\n"]
      ++ tables
      ++ ["---\n\n", "> 本README文件由系统自动生成，请勿手动修改。\n"])

/-- One row of the root table for a sub-directory of the designated
collection: aggregates re-traversed from the file system, link written as
`specifiedPath/subDir.name/README.md`. -/
def rootSubdirRow (sp : String) (fs : FSNode) (subDir : DocNode) : String :=
  "| [" ++ subDir.name ++ "](" ++ sp ++ "/" ++ subDir.name ++ "/README.md) | " ++
    toString (countMarkdownFiles (resolve fs subDir.path)) ++ " | " ++
    toString (estimateDirectoryWordCount (resolve fs subDir.path)) ++ " 字 | " ++
    (getDirectorySize (resolve fs subDir.path)).formatted ++ " |\n"

/-- The fixed footer block of `generateRootReadmeContent` in
`generate-docs-final.js` (auto-generation notice, contact and licensing
boilerplate, copied verbatim). -/
def rootFooterChunks : List String :=
  ["\n---\n\n",
   "> 本README文件由系统自动生成，请勿手动修改。\n---",
   "**📞 聯繫資訊**\n\n",
   "如有任何問題或建議，歡迎通過以下方式聯繫：\n\n",
   "- 📧 微信: yeyang0802\n",
   "- 🐙 GitHub: [@yeyangchen2009](https://github.com/yeyangchen2009)\n\n",
   "![](/_media/lxfs.jpg)\n",
   "**📄 版權聲明**\n\n",
   "本項目僅供學習和研究使用，如需商業用途請聯繫相關版權方。\n"]

/-- `generateRootReadmeContent(structure, basePath)`: heading named after
the configured collection; if a directory child with that name exists, a
four-column table with one aggregate row for it and one row per its
immediate sub-directory; then the fixed footer. -/
def generateRootReadmeContent (sp : String) (fs : FSNode) (st : DocNode) : List String :=
  ["# " ++ sp ++ "\n\n"]
  ++ (match st.children.find? (fun item => item.isDir && item.name == sp) with
      | some specifiedPathDir =>
        ["| 归类 | 书籍数量 | 预估字数 | 大小 |\n",
         "| --- | --- | --- | --- |\n",
         "| [" ++ specifiedPathDir.name ++ "](" ++ sp ++ "/README.md) | " ++
           toString (countMarkdownFiles (resolve fs specifiedPathDir.path)) ++ " | " ++
           toString (estimateDirectoryWordCount (resolve fs specifiedPathDir.path)) ++ " 字 | " ++
           (getDirectorySize (resolve fs specifiedPathDir.path)).formatted ++ " |\n"]
        ++ (specifiedPathDir.children.filter DocNode.isDir).map (rootSubdirRow sp fs)
      | none => [])
  ++ rootFooterChunks

/-- `generateRootSidebarContent(structure, basePath)`: home link, designated
collection link, separator, one link per collection sub-directory. -/
def generateRootSidebarContent (sp : String) (st : DocNode) : List String :=
  ["* [首页](README.md)\n"]
  ++ (match st.children.find? (fun item => item.isDir && item.name == sp) with
      | some specifiedPathDir =>
        ["* [" ++ sp ++ "](" ++ sp ++ "/README.md)\n", "\n---\n\n"]
        ++ (specifiedPathDir.children.filter DocNode.isDir).map (fun subDir =>
             "* [" ++ subDir.name ++ "](" ++ sp ++ "/" ++ subDir.name ++ "/README.md)\n")
      | none => [])

/-- `generateSubdirSidebarContent(structure, basePath)` from
`generate-docs-final.js`: two fixed back links, separator, one link per
direct file (links relative to `basePath`). -/
def generateSubdirSidebarContent (st : DocNode) (basePath : List String) : List String :=
  ["* [返回根目录](../README.md)\n",
   "* [返回上一级](./README.md)\n",
   "\n---\n\n"]
  ++ (st.children.filter DocNode.isFile).map (fun item =>
       "* [" ++ item.name ++ "](" ++ pathRelative basePath item.path ++ ")\n")

/-- One `fs.writeFileSync` call: target directory, filename, content. -/
structure FileWrite where
  dirPath : List String
  fileName : String
  content : List String

/-- The two writes `generateDocs` performs for the visited node itself,
in their fixed order: the README (choosing the renderer by role), then —
unless the node is named like the designated collection, which the script
explicitly skips (`if (structure.name !== config.specifiedPath)`) — the
sidebar. -/
def nodeOwnWrites (sp : String) (fs : FSNode) (st : DocNode) (basePath : List String)
    (isRoot : Bool) : Except Unit (List FileWrite) :=
  match (if isRoot then Except.ok (generateRootReadmeContent sp fs st)
         else if st.name == sp then generateSpecifiedPathReadmeContent fs st basePath
         else Except.ok (generateNormalReadmeContent st basePath)) with
  | Except.error err => Except.error err
  | Except.ok readmeContent =>
    Except.ok (FileWrite.mk st.path "README.md" readmeContent ::
      (if st.name != sp then
        [FileWrite.mk st.path "_sidebar.md"
          (if isRoot then generateRootSidebarContent sp st
           else generateSubdirSidebarContent st basePath)]
       else []))

mutual
/-- `generateDocs(structure, basePath, isRoot)` from
`generate-docs-final.js`, returning the ordered list of file writes it
performs (`writeFileSync` truncates, i.e. overwrites without backup): the
node's own writes first, then the writes of its directory children in
order. -/
def generateDocs (sp : String) (fs : FSNode) :
    DocNode → List String → Bool → Except Unit (List FileWrite)
  | DocNode.file nm p dep sz fmt wc, basePath, isRoot =>
    nodeOwnWrites sp fs (DocNode.file nm p dep sz fmt wc) basePath isRoot
  | DocNode.dir nm p dep children, basePath, isRoot =>
    match nodeOwnWrites sp fs (DocNode.dir nm p dep children) basePath isRoot with
    | Except.error err => Except.error err
    | Except.ok own =>
      match generateDocsChildren sp fs children basePath with
      | Except.error err => Except.error err
      | Except.ok childWrites => Except.ok (own ++ childWrites)

/-- The `structure.children.forEach` recursion of `generateDocs`: every
directory child is visited with `isRoot = false`. -/
def generateDocsChildren (sp : String) (fs : FSNode) :
    List DocNode → List String → Except Unit (List FileWrite)
  | [], _ => Except.ok []
  | item :: rest, basePath =>
    if item.isDir then
      match generateDocs sp fs item basePath false with
      | Except.error err => Except.error err
      | Except.ok ws =>
        match generateDocsChildren sp fs rest basePath with
        | Except.error err => Except.error err
        | Except.ok ws2 => Except.ok (ws ++ ws2)
    else generateDocsChildren sp fs rest basePath

end

/-- `main()`: resolve the root, abort via `process.exit(1)` when it does not
exist (before any scan or write), otherwise scan and emit.  `rootName` is
the basename of the resolved target directory. -/
def mainRun (sp rootName : String) (target : Option FSNode) : Except Unit (List FileWrite) :=
  match target with
  | none => Except.error ()
  | some fs =>
    match getDirectoryStructure rootName [] 0 (some fs) with
    | Except.error err => Except.error err
    | Except.ok st => generateDocs sp fs st [] true

namespace UsageVariant

/-- The per-sub-directory table of `generateSpecifiedPathReadmeContent` in
the variant script embedded in `src/js/USAGE_EXAMPLE.md`: list the
sub-directory's direct files when it has any; otherwise, when it only has
further sub-directories, emit a single roll-up row with its recursive
totals, linked to its README. -/
def specifiedSubdirTable (fs : FSNode) (basePath : List String) (dir : DocNode) :
    Except Unit (List String) :=
  match getDirectoryStructure dir.name dir.path 0 (resolve fs dir.path) with
  | Except.error err => Except.error err
  | Except.ok subdirStructure =>
    let files := subdirStructure.children.filter DocNode.isFile
    let subdirs := subdirStructure.children.filter DocNode.isDir
    Except.ok (["## " ++ dir.name ++ "\n\n",
                "| 文件名称 | 预估字数 | 大小 |\n",
                "|----------|----------|------|\n"]
      ++ (if files.length > 0 then files.map (fileRowChunk basePath)
          else if subdirs.length > 0 then
            ["| [总计：" ++ toString (countMarkdownFiles (resolve fs dir.path)) ++
               " 部书](" ++ pathRelative basePath dir.path ++ "/README.md) | " ++
               toString (estimateDirectoryWordCount (resolve fs dir.path)) ++ " 字 | " ++
               (getDirectorySize (resolve fs dir.path)).formatted ++ " |\n"]
          else [])
      ++ ["\n"])

end UsageVariant

/-!
## Concrete file-system fixtures used by counterexamples and witnesses

`fsRoot` mirrors the end-to-end scenario of the spec's §8: a scan root
whose designated collection `艺藏` holds `A` (two documents, 500 B and
2000 B) and `B` (no direct documents, one sub-directory `B1` with a single
10-byte document).
-/

def fsA : FSNode := .dir true [.mk "a1.md" true (.file 500 true), .mk "a2.md" true (.file 2000 true)]
def fsB1 : FSNode := .dir true [.mk "b.md" true (.file 10 true)]
def fsB : FSNode := .dir true [.mk "B1" true fsB1]
def fsColl : FSNode := .dir true [.mk "A" true fsA, .mk "B" true fsB]
def fsRoot : FSNode := .dir true [.mk "艺藏" true fsColl]

/-- The scanned tree for `fsRoot` (the scan succeeds; `rfl` below keeps the
fixture honest). -/
def stRoot : DocNode :=
  (getDirectoryStructure "root" [] 0 (some fsRoot)).toOption.getD (DocNode.dir "root" [] 0 [])

example : getDirectoryStructure "root" [] 0 (some fsRoot) = Except.ok stRoot := rfl
example : countMarkdownFilesNode fsColl = 3 := rfl
example : getDirectorySize (some fsColl) = ⟨2510, "2.45 KB"⟩ := rfl

mutual
/-- The `(directory, filename)` pairs `generateDocs` is specified to write,
in order: README for the visited node, its sidebar unless the node carries
the designated-collection name, then the directory children's writes. -/
def plannedWrites (sp : String) : DocNode → List (List String × String)
  | DocNode.file nm p _ _ _ _ =>
    (p, "README.md") :: (if nm != sp then [(p, "_sidebar.md")] else [])
  | DocNode.dir nm p _ children =>
    (p, "README.md") ::
      ((if nm != sp then [(p, "_sidebar.md")] else []) ++ plannedWritesChildren sp children)

/-- `plannedWrites` over the directory children of a node. -/
def plannedWritesChildren (sp : String) : List DocNode → List (List String × String)
  | [] => []
  | item :: rest =>
    (if item.isDir then plannedWrites sp item else []) ++ plannedWritesChildren sp rest
end

/-- The `B` child of the designated collection as the scanner builds it:
no direct documents, one sub-directory `B1`. -/
def dirBNode : DocNode :=
  DocNode.dir "B" ["艺藏", "B"] 2
    [DocNode.dir "B1" ["艺藏", "B", "B1"] 3
      [DocNode.file "b" ["艺藏", "B", "B1", "b.md"] 4 10 "10 B" 3]]

example : (getDirectoryStructure "艺藏" [] 0 (some fsColl)).toOption.map
    (fun d => d.children.filter DocNode.isDir) =
    some [DocNode.dir "A" ["A"] 1
            [DocNode.file "a1" ["A", "a1.md"] 2 500 "500 B" 167,
             DocNode.file "a2" ["A", "a2.md"] 2 2000 "1.95 KB" 667],
          DocNode.dir "B" ["B"] 1
            [DocNode.dir "B1" ["B", "B1"] 2
              [DocNode.file "b" ["B", "B1", "b.md"] 3 10 "10 B" 3]]] := rfl

/-!
## Helper lemmas
-/

theorem sumEntryCounts_eq (l : List FSEntry) :
    sumEntryCounts l =
      (l.filter (fun e => e.node.isFile && (extname e.name == ".md"))).length
      + ((l.filter (fun e => e.node.isDir)).map (fun e => countMarkdownFilesNode e.node)).sum := by
  induction l with
  | nil => rfl
  | cons e rest ih =>
    cases e with
    | mk nm st n =>
      cases n with
      | file b r =>
        by_cases h : (extname nm == ".md") = true <;>
          simp [sumEntryCounts, FSEntry.name, FSEntry.node, FSNode.isFile, FSNode.isDir, h, ih] <;>
          omega
      | dir lk es =>
        simp [sumEntryCounts, FSEntry.node, FSNode.isFile, FSNode.isDir, ih]
        omega

/-!
## Claim theorems
-/

/-- C1: for every directory whose listing and direct stats succeed, the
recursive document count equals the number of its direct `.md` files plus
the sum of the recursive document counts of its immediate
sub-directories. -/
theorem countMarkdownFiles_recursive_additivity (entries : List FSEntry)
    (hstat : entries.all FSEntry.statOk = true) :
    countMarkdownFiles (some (FSNode.dir true entries)) =
      (entries.filter (fun e => e.node.isFile && (extname e.name == ".md"))).length
      + ((entries.filter (fun e => e.node.isDir)).map
          (fun e => countMarkdownFiles (some e.node))).sum := by
  simp [countMarkdownFiles, countMarkdownFilesNode, hstat, sumEntryCounts_eq]

/-- Witness for C1 at the designated collection of the concrete fixture
(two sub-directories, three documents overall). -/
theorem countMarkdownFiles_recursive_additivity_witness :
    ([FSEntry.mk "A" true fsA, FSEntry.mk "B" true fsB].all FSEntry.statOk = true) ∧
    countMarkdownFiles (some (FSNode.dir true [FSEntry.mk "A" true fsA, FSEntry.mk "B" true fsB])) =
      ([FSEntry.mk "A" true fsA, FSEntry.mk "B" true fsB].filter
          (fun e => e.node.isFile && (extname e.name == ".md"))).length
      + (([FSEntry.mk "A" true fsA, FSEntry.mk "B" true fsB].filter
          (fun e => e.node.isDir)).map (fun e => countMarkdownFiles (some e.node))).sum :=
  ⟨rfl, countMarkdownFiles_recursive_additivity _ rfl⟩

/-- C3 (amended): the three unit bands and their rendering rule are as
claimed, the formatted value is monotone within each band, and the byte
boundaries 1024 and 1024² promote to the next unit — but the rendered KB
value is *not* always strictly below 1024: it reaches exactly 1024 for the
byte counts 1048571–1048575 just below the MB boundary, and is strictly
below 1024 only up to 1048570 bytes. -/
theorem formatSize_band_properties :
    (∀ n : Nat, n < 1024 → formatSize n = toString n ++ " B") ∧
    (∀ n : Nat, 1024 ≤ n → n < 1024 * 1024 →
       formatSize n = renderCenti (jsRound (n * 100) 1024) ++ " KB") ∧
    (∀ n : Nat, 1024 * 1024 ≤ n →
       formatSize n = renderCenti (jsRound (n * 100) (1024 * 1024)) ++ " MB") ∧
    (∀ n : Nat, n ≤ 1048570 → jsRound (n * 100) 1024 < 102400) ∧
    (∀ n : Nat, 1048571 ≤ n → 102400 ≤ jsRound (n * 100) 1024) ∧
    (∀ m n : Nat, m ≤ n → jsRound (m * 100) 1024 ≤ jsRound (n * 100) 1024) ∧
    (∀ m n : Nat, m ≤ n → jsRound (m * 100) (1024 * 1024) ≤ jsRound (n * 100) (1024 * 1024)) ∧
    formatSize 1023 = "1023 B" ∧ formatSize 1024 = "1 KB" ∧
    formatSize 1048575 = "1024 KB" ∧ formatSize 1048576 = "1 MB" := by
  refine ⟨?_, ?_, ?_, ?_, ?_, ?_, ?_, rfl, rfl, rfl, rfl⟩
  · intro n h; unfold formatSize; rw [if_pos h]
  · intro n h1 h2; unfold formatSize; rw [if_neg (by omega), if_pos h2]
  · intro n h; unfold formatSize; rw [if_neg (by omega), if_neg (by omega)]
  · intro n h; unfold jsRound; omega
  · intro n h; unfold jsRound; omega
  · intro m n h; unfold jsRound; exact Nat.div_le_div_right (by omega)
  · intro m n h; unfold jsRound; exact Nat.div_le_div_right (by omega)

/-- Witness for C3's amended statement in the KB band. -/
theorem formatSize_band_properties_witness :
    (1024 ≤ 2048 ∧ 2048 < 1024 * 1024 ∧
      formatSize 2048 = renderCenti (jsRound (2048 * 100) 1024) ++ " KB") ∧
    (2048 ≤ 1048570 ∧ jsRound (2048 * 100) 1024 < 102400) :=
  ⟨⟨by norm_num, by norm_num,
      formatSize_band_properties.2.1 2048 (by norm_num) (by norm_num)⟩,
    ⟨by norm_num, formatSize_band_properties.2.2.2.1 2048 (by norm_num)⟩⟩

/-- C3 counterexample: 1048571 bytes sits in the KB band (it is below
1024²) yet renders as `"1024 KB"` — a numeric value of 1024 in the chosen
unit, contradicting the claim that the rendered KB value is strictly below
1024. -/
theorem formatSize_1024KB_counterexample :
    formatSize 1048571 = "1024 KB" ∧ 1024 ≤ 1048571 ∧ 1048571 < 1024 * 1024 ∧
    ¬ jsRound (1048571 * 100) 1024 < 102400 :=
  ⟨rfl, by norm_num, by norm_num, by decide⟩

/-- C6 (amended): size and metrics computations are total and degrade to
zero-valued results — a failed `statSync` inside `getFileSize` yields
`{0, '0 B'}`, an unreadable file yields word count 0, an unlistable
directory collapses `getDirectorySize`/`estimateDirectoryWordCount`/
`countMarkdownFiles` to 0 while an enclosing walk keeps summing the
remaining entries — and a *missing* path during a scan is non-fatal (empty
node); but an *unreadable* directory during a scan raises (see the
counterexample). -/
theorem scan_and_metrics_error_behavior :
    (∀ nm p d, getDirectoryStructure nm p d none = Except.ok (DocNode.dir nm p d [])) ∧
    (∀ nm n, getFileSize (some (FSEntry.mk nm false n)) = ⟨0, "0 B"⟩) ∧
    (∀ nm st b, estimateWordCount (some (FSEntry.mk nm st (FSNode.file b false))) = 0) ∧
    (∀ es, getDirectorySize (some (FSNode.dir false es)) = ⟨0, "0 B"⟩ ∧
      estimateDirectoryWordCount (some (FSNode.dir false es)) = 0 ∧
      countMarkdownFiles (some (FSNode.dir false es)) = 0) ∧
    (∀ nm nm2 b es,
      getDirectorySize (some (FSNode.dir true
        [FSEntry.mk nm true (FSNode.dir false es), FSEntry.mk nm2 true (FSNode.file b true)])) =
        ⟨b, formatSize b⟩) := by
  refine ⟨fun nm p d => rfl, fun nm n => rfl, fun nm st b => ?_, fun es => ⟨?_, ?_, ?_⟩,
    fun nm nm2 b es => ?_⟩
  · cases st <;> rfl
  · simp [getDirectorySize]
  · simp [estimateDirectoryWordCount, estimateDirectoryWordCountNode]
  · simp [countMarkdownFiles, countMarkdownFilesNode]
  · simp [getDirectorySize, sumEntrySizes, FSEntry.statOk, getDirectorySizeNode]

/-- C6 counterexample: an unreadable sub-directory encountered during a
scan is fatal to the scan — `getDirectoryStructure` has no `try`/`catch`,
so the `readdirSync` failure propagates to its caller instead of degrading
to a zero-valued result. -/
theorem scan_raises_on_unreadable_counterexample :
    getDirectoryStructure "r" [] 0
      (some (FSNode.dir true [FSEntry.mk "sub" true (FSNode.dir false [])])) =
      Except.error () := rfl

/-- C8: a missing root path aborts the run (`process.exit(1)`) before the
scan and before any file write. -/
theorem missing_root_aborts_without_writes (sp rootName : String) :
    mainRun sp rootName none = Except.error () := rfl

/-- C9 (amended): a file without the `.md` extension is not counted as a
document and contributes nothing to the content-volume aggregate, but its
bytes do count in the recursive byte-size aggregate (`getDirectorySize`
sums all files, matching whole-subtree disk usage). -/
theorem nonmd_files_uncounted_but_sized (nm : String) (b : Nat) (r : Bool)
    (entries : List FSEntry)
    (hmd : (extname nm == ".md") = false)
    (hstat : entries.all FSEntry.statOk = true) :
    countMarkdownFiles (some (FSNode.dir true (FSEntry.mk nm true (FSNode.file b r) :: entries))) =
      countMarkdownFiles (some (FSNode.dir true entries)) ∧
    estimateDirectoryWordCount
        (some (FSNode.dir true (FSEntry.mk nm true (FSNode.file b r) :: entries))) =
      estimateDirectoryWordCount (some (FSNode.dir true entries)) ∧
    (getDirectorySize
        (some (FSNode.dir true (FSEntry.mk nm true (FSNode.file b r) :: entries)))).size =
      b + (getDirectorySize (some (FSNode.dir true entries))).size := by
  refine ⟨?_, ?_, ?_⟩
  · simp [countMarkdownFiles, countMarkdownFilesNode, sumEntryCounts, FSEntry.statOk, hmd, hstat]
  · simp [estimateDirectoryWordCount, estimateDirectoryWordCountNode, sumEntryWordCounts,
      FSEntry.statOk, hmd, hstat]
  · simp [getDirectorySize, sumEntrySizes, FSEntry.statOk, hstat]

/-- Witness for C9's amended statement: a 100-byte `a.txt` next to a
10-byte `a.md`. -/
theorem nonmd_files_uncounted_but_sized_witness :
    ((extname "a.txt" == ".md") = false) ∧
    ([FSEntry.mk "a.md" true (FSNode.file 10 true)].all FSEntry.statOk = true) ∧
    (countMarkdownFiles (some (FSNode.dir true
        (FSEntry.mk "a.txt" true (FSNode.file 100 true)
          :: [FSEntry.mk "a.md" true (FSNode.file 10 true)]))) =
      countMarkdownFiles (some (FSNode.dir true [FSEntry.mk "a.md" true (FSNode.file 10 true)])) ∧
     estimateDirectoryWordCount (some (FSNode.dir true
        (FSEntry.mk "a.txt" true (FSNode.file 100 true)
          :: [FSEntry.mk "a.md" true (FSNode.file 10 true)]))) =
      estimateDirectoryWordCount
        (some (FSNode.dir true [FSEntry.mk "a.md" true (FSNode.file 10 true)])) ∧
     (getDirectorySize (some (FSNode.dir true
        (FSEntry.mk "a.txt" true (FSNode.file 100 true)
          :: [FSEntry.mk "a.md" true (FSNode.file 10 true)])))).size =
      100 + (getDirectorySize
        (some (FSNode.dir true [FSEntry.mk "a.md" true (FSNode.file 10 true)]))).size) :=
  ⟨rfl, rfl, nonmd_files_uncounted_but_sized "a.txt" 100 true _ rfl rfl⟩

/-- C9 counterexample: the 100 bytes of a lone `a.txt` flow into the
recursive byte-size aggregate of its directory even though the file is
neither counted nor measured for content volume — refuting the part of the
claim that non-`.md` files contribute nothing to any size aggregate. -/
theorem nonmd_bytes_in_size_counterexample :
    countMarkdownFiles (some (FSNode.dir true [FSEntry.mk "a.txt" true (FSNode.file 100 true)])) = 0 ∧
    estimateDirectoryWordCount
      (some (FSNode.dir true [FSEntry.mk "a.txt" true (FSNode.file 100 true)])) = 0 ∧
    getDirectorySize (some (FSNode.dir true [FSEntry.mk "a.txt" true (FSNode.file 100 true)])) =
      ⟨100, "100 B"⟩ ∧ (100 : Nat) ≠ 0 :=
  ⟨rfl, rfl, rfl, by decide⟩

/-- C10: the three aggregate operations are total on arbitrary path
targets — a nonexistent path, a path naming a regular file, and any
mid-traversal listing/stat failure all produce the zero-valued result for
that call (never a partial sum, never an exception). -/
theorem aggregates_total_and_collapse_to_zero :
    (countMarkdownFiles none = 0 ∧ estimateDirectoryWordCount none = 0 ∧
      getDirectorySize none = ⟨0, "0 B"⟩) ∧
    (∀ b r, countMarkdownFiles (some (FSNode.file b r)) = 0 ∧
      estimateDirectoryWordCount (some (FSNode.file b r)) = 0 ∧
      getDirectorySize (some (FSNode.file b r)) = ⟨0, "0 B"⟩) ∧
    (∀ lk entries, entries.all FSEntry.statOk = false →
      countMarkdownFiles (some (FSNode.dir lk entries)) = 0 ∧
      estimateDirectoryWordCount (some (FSNode.dir lk entries)) = 0 ∧
      getDirectorySize (some (FSNode.dir lk entries)) = ⟨0, "0 B"⟩) ∧
    (∀ entries, countMarkdownFiles (some (FSNode.dir false entries)) = 0 ∧
      estimateDirectoryWordCount (some (FSNode.dir false entries)) = 0 ∧
      getDirectorySize (some (FSNode.dir false entries)) = ⟨0, "0 B"⟩) := by
  refine ⟨⟨rfl, rfl, rfl⟩, fun b r => ⟨rfl, rfl, rfl⟩, fun lk entries h => ⟨?_, ?_, ?_⟩,
    fun entries => ⟨?_, ?_, ?_⟩⟩
  · simp [countMarkdownFiles, countMarkdownFilesNode, h]
  · simp [estimateDirectoryWordCount, estimateDirectoryWordCountNode, h]
  · simp [getDirectorySize, h]
  · simp [countMarkdownFiles, countMarkdownFilesNode]
  · simp [estimateDirectoryWordCount, estimateDirectoryWordCountNode]
  · simp [getDirectorySize]

/-- Witness for C10 at a directory whose single entry fails `statSync`
mid-listing: the whole call collapses to zero, not to a partial sum. -/
theorem aggregates_total_and_collapse_to_zero_witness :
    ([FSEntry.mk "a.md" false (FSNode.file 7 true),
      FSEntry.mk "b.md" true (FSNode.file 9 true)].all FSEntry.statOk = false) ∧
    (countMarkdownFiles (some (FSNode.dir true
        [FSEntry.mk "a.md" false (FSNode.file 7 true),
         FSEntry.mk "b.md" true (FSNode.file 9 true)])) = 0 ∧
     estimateDirectoryWordCount (some (FSNode.dir true
        [FSEntry.mk "a.md" false (FSNode.file 7 true),
         FSEntry.mk "b.md" true (FSNode.file 9 true)])) = 0 ∧
     getDirectorySize (some (FSNode.dir true
        [FSEntry.mk "a.md" false (FSNode.file 7 true),
         FSEntry.mk "b.md" true (FSNode.file 9 true)])) = ⟨0, "0 B"⟩) :=
  ⟨rfl, (aggregates_total_and_collapse_to_zero.2.2.1 true _ rfl)⟩

/-- C4 (amended): every file row that a directory's own index page emits
links to the file by `path.relative(basePath, file.path)` where `basePath`
is always the *scan root* (the emitter threads the root unchanged through
the recursion) — with `basePath = []` that is the root-relative
forward-slash join of the file's segments, not the path relative to the
page's own directory.  Separators are normalised to `/`. -/
theorem normal_readme_links_are_base_relative (st f : DocNode)
    (hf : f ∈ st.children.filter DocNode.isFile) :
    fileRowChunk [] f ∈ generateNormalReadmeContent st [] ∧
    fileRowChunk [] f =
      "| [" ++ f.name ++ "](" ++ String.intercalate "/" f.path ++ ") | " ++
        toString f.wordCount ++ " 字 | " ++ f.formattedSize ++ " |\n" := by
  constructor
  · have hlen : 0 < (st.children.filter DocNode.isFile).length :=
      List.length_pos.mpr (List.ne_nil_of_mem hf)
    have hmem : fileRowChunk [] f ∈ (st.children.filter DocNode.isFile).map (fileRowChunk []) :=
      List.mem_map_of_mem _ hf
    simp only [generateNormalReadmeContent, if_pos hlen, List.mem_append]
    by_cases hd : 0 < (st.children.filter DocNode.isDir).length <;> simp [hd, hmem]
  · rfl

/-- Witness for C4's amended statement on a one-file directory. -/
theorem normal_readme_links_are_base_relative_witness :
    ((DocNode.file "f" ["f.md"] 1 10 "10 B" 3) ∈
      (DocNode.dir "d" [] 0 [DocNode.file "f" ["f.md"] 1 10 "10 B" 3]).children.filter
        DocNode.isFile) ∧
    (fileRowChunk [] (DocNode.file "f" ["f.md"] 1 10 "10 B" 3) ∈
       generateNormalReadmeContent
         (DocNode.dir "d" [] 0 [DocNode.file "f" ["f.md"] 1 10 "10 B" 3]) [] ∧
     fileRowChunk [] (DocNode.file "f" ["f.md"] 1 10 "10 B" 3) =
       "| [" ++ (DocNode.file "f" ["f.md"] 1 10 "10 B" 3).name ++ "](" ++
         String.intercalate "/" (DocNode.file "f" ["f.md"] 1 10 "10 B" 3).path ++ ") | " ++
         toString (DocNode.file "f" ["f.md"] 1 10 "10 B" 3).wordCount ++ " 字 | " ++
         (DocNode.file "f" ["f.md"] 1 10 "10 B" 3).formattedSize ++ " |\n") :=
  ⟨List.mem_filter.mpr ⟨List.mem_singleton_self _, rfl⟩,
   normal_readme_links_are_base_relative _ _
     (List.mem_filter.mpr ⟨List.mem_singleton_self _, rfl⟩)⟩

/-- C4 counterexample: on the index page of the nested directory `a/b`,
the row for its file `f.md` carries the root-relative link `a/b/f.md`; the
path relative to the page's own directory would be `f.md`, and no row with
that link is emitted — refuting the claim that links are relative to the
directory of the page being rendered. -/
theorem normal_readme_link_not_page_relative_counterexample :
    fileRowChunk [] (DocNode.file "f" ["a", "b", "f.md"] 3 10 "10 B" 3) =
      "| [f](a/b/f.md) | 3 字 | 10 B |\n" ∧
    pathRelative ["a", "b"] ["a", "b", "f.md"] = "f.md" ∧
    "| [f](a/b/f.md) | 3 字 | 10 B |\n" ∈
      generateNormalReadmeContent
        (DocNode.dir "b" ["a", "b"] 2 [DocNode.file "f" ["a", "b", "f.md"] 3 10 "10 B" 3]) [] ∧
    "| [f](f.md) | 3 字 | 10 B |\n" ∉
      generateNormalReadmeContent
        (DocNode.dir "b" ["a", "b"] 2 [DocNode.file "f" ["a", "b", "f.md"] 3 10 "10 B" 3]) [] :=
  ⟨rfl, rfl, by decide, by decide⟩

/-- C5 (amended): on the designated-collection page that
`generate-docs-final.js` actually renders, each immediate sub-directory's
sub-table always lists the sub-directory's direct document files — a
sub-directory containing only further sub-directories yields an empty
table, with no roll-up row.  (The roll-up behaviour the claim describes is
implemented only by the variant script embedded in `USAGE_EXAMPLE.md`,
modelled as `UsageVariant.specifiedSubdirTable`.) -/
theorem specified_subdir_table_lists_direct_files (fs : FSNode) (basePath : List String)
    (dir sub : DocNode)
    (h : getDirectoryStructure dir.name dir.path 0 (resolve fs dir.path) = Except.ok sub) :
    specifiedSubdirTable fs basePath dir =
      Except.ok (["## " ++ dir.name ++ "\n\n",
                  "| 文件名称 | 预估字数 | 大小 |\n",
                  "|----------|----------|------|\n"]
        ++ (sub.children.filter DocNode.isFile).map (fileRowChunk basePath) ++ ["\n"]) := by
  unfold specifiedSubdirTable
  rw [h]

/-- Witness for C5's amended statement at the directory-only child `B`. -/
theorem specified_subdir_table_lists_direct_files_witness :
    (getDirectoryStructure dirBNode.name dirBNode.path 0 (resolve fsRoot dirBNode.path) =
      Except.ok (DocNode.dir "B" ["艺藏", "B"] 0
        [DocNode.dir "B1" ["艺藏", "B", "B1"] 1
          [DocNode.file "b" ["艺藏", "B", "B1", "b.md"] 2 10 "10 B" 3]])) ∧
    specifiedSubdirTable fsRoot [] dirBNode =
      Except.ok (["## " ++ dirBNode.name ++ "\n\n",
                  "| 文件名称 | 预估字数 | 大小 |\n",
                  "|----------|----------|------|\n"]
        ++ ((DocNode.dir "B" ["艺藏", "B"] 0
              [DocNode.dir "B1" ["艺藏", "B", "B1"] 1
                [DocNode.file "b" ["艺藏", "B", "B1", "b.md"] 2 10 "10 B" 3]]).children.filter
            DocNode.isFile).map (fileRowChunk []) ++ ["\n"]) :=
  ⟨rfl, specified_subdir_table_lists_direct_files fsRoot [] dirBNode _ rfl⟩

/-- C5 counterexample: for the sub-directory `B`, which has no direct
documents and one sub-directory, the shipped script's designated-collection
sub-table contains no data row at all — the roll-up row (which the variant
script would emit, shown alongside) is absent, refuting the claim for the
code in `generate-docs-final.js`. -/
theorem specified_subdir_rollup_counterexample :
    specifiedSubdirTable fsRoot [] dirBNode =
      Except.ok ["## B\n\n", "| 文件名称 | 预估字数 | 大小 |\n",
                 "|----------|----------|------|\n", "\n"] ∧
    UsageVariant.specifiedSubdirTable fsRoot [] dirBNode =
      Except.ok ["## B\n\n", "| 文件名称 | 预估字数 | 大小 |\n",
                 "|----------|----------|------|\n",
                 "| [总计：1 部书](艺藏/B/README.md) | 3 字 | 10 B |\n", "\n"] ∧
    "| [总计：1 部书](艺藏/B/README.md) | 3 字 | 10 B |\n" ∉
      (["## B\n\n", "| 文件名称 | 预估字数 | 大小 |\n",
        "|----------|----------|------|\n", "\n"] : List String) :=
  ⟨rfl, rfl, by decide⟩

theorem nodeOwnWrites_names (sp : String) (fs : FSNode) (st : DocNode) (basePath : List String)
    (isRoot : Bool) (os : List FileWrite)
    (h : nodeOwnWrites sp fs st basePath isRoot = Except.ok os) :
    os.map (fun w => (w.dirPath, w.fileName)) =
      (st.path, "README.md") :: (if st.name != sp then [(st.path, "_sidebar.md")] else []) := by
  unfold nodeOwnWrites at h
  split at h
  · exact absurd h (by simp)
  · injection h with h
    subst h
    by_cases hn : (st.name != sp) = true <;> simp [hn]

mutual
theorem generateDocsWritesAux (sp : String) (fs : FSNode) :
    ∀ (st : DocNode) (basePath : List String) (isRoot : Bool) (ws : List FileWrite),
      generateDocs sp fs st basePath isRoot = Except.ok ws →
      ws.map (fun w => (w.dirPath, w.fileName)) = plannedWrites sp st
  | DocNode.file nm p dep sz fmt wc, basePath, isRoot, ws, h => by
    simp only [generateDocs] at h
    rw [nodeOwnWrites_names sp fs _ basePath isRoot ws h]
    simp [plannedWrites, DocNode.name, DocNode.path]
  | DocNode.dir nm p dep children, basePath, isRoot, ws, h => by
    simp only [generateDocs] at h
    split at h
    · exact absurd h (by simp)
    next own hown =>
      split at h
      · exact absurd h (by simp)
      next cws hcw =>
        injection h with h
        subst h
        rw [List.map_append, nodeOwnWrites_names sp fs _ basePath isRoot own hown,
            generateDocsChildrenWritesAux sp fs children basePath cws hcw]
        simp [plannedWrites, DocNode.name, DocNode.path]

theorem generateDocsChildrenWritesAux (sp : String) (fs : FSNode) :
    ∀ (l : List DocNode) (basePath : List String) (ws : List FileWrite),
      generateDocsChildren sp fs l basePath = Except.ok ws →
      ws.map (fun w => (w.dirPath, w.fileName)) = plannedWritesChildren sp l
  | [], basePath, ws, h => by
    simp only [generateDocsChildren] at h
    injection h with h
    subst h
    rfl
  | item :: rest, basePath, ws, h => by
    simp only [generateDocsChildren] at h
    by_cases hd : item.isDir = true
    · rw [if_pos hd] at h
      split at h
      · exact absurd h (by simp)
      next w1 h1 =>
        split at h
        · exact absurd h (by simp)
        next w2 h2 =>
          injection h with h
          subst h
          rw [List.map_append, generateDocsWritesAux sp fs item basePath false w1 h1,
              generateDocsChildrenWritesAux sp fs rest basePath w2 h2]
          simp [plannedWritesChildren, hd]
    · rw [if_neg hd] at h
      rw [generateDocsChildrenWritesAux sp fs rest basePath ws h]
      simp [plannedWritesChildren, hd]
end

/-- C7 (amended): whenever the emitter completes, the files it wrote are,
in order, for every visited directory: its `README.md` first and its
`_sidebar.md` second — except that a directory named like the designated
collection gets no sidebar at all (the script explicitly skips that write);
each write overwrites any existing file at that path without backup
(`writeFileSync` truncates). -/
theorem generateDocs_write_plan (sp : String) (fs : FSNode) (st : DocNode)
    (basePath : List String) (isRoot : Bool) (ws : List FileWrite)
    (h : generateDocs sp fs st basePath isRoot = Except.ok ws) :
    ws.map (fun w => (w.dirPath, w.fileName)) = plannedWrites sp st :=
  generateDocsWritesAux sp fs st basePath isRoot ws h

/-- Witness for C7's amended statement on a one-directory scan. -/
theorem generateDocs_write_plan_witness :
    (generateDocs "S" (FSNode.dir true []) (DocNode.dir "r" [] 0 []) [] true =
      Except.ok ((generateDocs "S" (FSNode.dir true [])
        (DocNode.dir "r" [] 0 []) [] true).toOption.getD [])) ∧
    ((generateDocs "S" (FSNode.dir true [])
        (DocNode.dir "r" [] 0 []) [] true).toOption.getD []).map
      (fun w => (w.dirPath, w.fileName)) = plannedWrites "S" (DocNode.dir "r" [] 0 []) :=
  ⟨rfl, generateDocs_write_plan "S" (FSNode.dir true []) (DocNode.dir "r" [] 0 []) [] true _ rfl⟩

/-- C7 counterexample: on the end-to-end fixture the walk visits the
designated-collection directory `艺藏` but never writes its sidebar — the
write list contains `艺藏/README.md` and no `艺藏/_sidebar.md`, refuting
the claim that no visited directory is skipped for either write. -/
theorem specified_sidebar_skipped_counterexample :
    ((mainRun "艺藏" "root" (some fsRoot)).toOption.getD []).map
        (fun w => (w.dirPath, w.fileName)) =
      [([], "README.md"), ([], "_sidebar.md"),
       (["艺藏"], "README.md"),
       (["艺藏", "A"], "README.md"), (["艺藏", "A"], "_sidebar.md"),
       (["艺藏", "B"], "README.md"), (["艺藏", "B"], "_sidebar.md"),
       (["艺藏", "B", "B1"], "README.md"), (["艺藏", "B", "B1"], "_sidebar.md")] ∧
    (["艺藏"], "_sidebar.md") ∉
      ([([], "README.md"), ([], "_sidebar.md"),
        (["艺藏"], "README.md"),
        (["艺藏", "A"], "README.md"), (["艺藏", "A"], "_sidebar.md"),
        (["艺藏", "B"], "README.md"), (["艺藏", "B"], "_sidebar.md"),
        (["艺藏", "B", "B1"], "README.md"), (["艺藏", "B", "B1"], "_sidebar.md")] :
        List (List String × String)) :=
  ⟨rfl, by decide⟩

theorem FSEntry.name_mk (n : String) (s : Bool) (t : FSNode) : (FSEntry.mk n s t).name = n := rfl

theorem mem_insertSorted (x a : String) (l : List String) :
    a ∈ insertSorted x l ↔ a = x ∨ a ∈ l := by
  induction l with
  | nil => simp [insertSorted]
  | cons y ys ih =>
    by_cases h : (compare x y == Ordering.gt) = true <;>
      simp [insertSorted, h, ih] <;> tauto

theorem mem_sortStrings (a : String) (l : List String) : a ∈ sortStrings l ↔ a ∈ l := by
  induction l with
  | nil => simp [sortStrings]
  | cons x xs ih => simp [sortStrings, mem_insertSorted, ih]

theorem findEntry_filter (l : List FSEntry) (f : String) (hf : isIgnored f = false) :
    findEntry (l.filter (fun e => !isIgnored e.name)) f = findEntry l f := by
  induction l with
  | nil => rfl
  | cons e rest ih =>
    rw [List.filter_cons]
    cases hig : isIgnored e.name with
    | true =>
      have hne : (e.name == f) = false := by
        by_cases hq : (e.name == f) = true
        · rw [eq_of_beq hq] at hig
          rw [hig] at hf
          exact absurd hf (by simp)
        · simpa using hq
      simp [hig, findEntry, hne, ih]
    | false =>
      simp [hig, findEntry, ih]

theorem scanSubdirEntries_filter (p : List String) (d : Nat) (l : List FSEntry) :
    scanSubdirEntries p d (l.filter (fun e => !isIgnored e.name)) = scanSubdirEntries p d l := by
  induction l with
  | nil => rfl
  | cons e rest ih =>
    cases e with
    | mk nm st n =>
      rw [List.filter_cons]
      cases hig : isIgnored nm with
      | true =>
        simp only [FSEntry.name_mk, hig, Bool.not_true, Bool.false_eq_true, if_false]
        rw [ih]
        simp [scanSubdirEntries, hig]
      | false =>
        simp only [FSEntry.name_mk, hig, Bool.not_false, if_true]
        simp [scanSubdirEntries, hig, ih]

theorem scanFileChildren_filter (entries : List FSEntry) (p : List String) (d : Nat) :
    scanFileChildren (entries.filter (fun e => !isIgnored e.name)) p d =
      scanFileChildren entries p d := by
  unfold scanFileChildren
  have hnames :
      (entries.filter (fun e => !isIgnored e.name)).filter
          (fun e => !isIgnored e.name && e.node.isFile && (extname e.name == ".md")) =
        entries.filter
          (fun e => !isIgnored e.name && e.node.isFile && (extname e.name == ".md")) := by
    rw [List.filter_filter]
    exact List.filter_congr (fun e _ => by cases hig : isIgnored e.name <;> simp [hig])
  rw [hnames]
  apply List.map_congr_left
  intro f hfmem
  have hfmd : f ∈ (entries.filter
      (fun e => !isIgnored e.name && e.node.isFile && (extname e.name == ".md"))).map
        FSEntry.name := (mem_sortStrings f _).mp hfmem
  have hfig : isIgnored f = false := by
    rcases List.mem_map.mp hfmd with ⟨e, hemem, hename⟩
    have hpe := (List.mem_filter.mp hemem).2
    simp only [Bool.and_eq_true, Bool.not_eq_true'] at hpe
    rw [← hename]
    exact hpe.1.1
  rw [findEntry_filter entries f hfig]

/-- C2 (amended): the four reserved filenames are excluded from the
scanned tree — scanning a directory yields exactly the same tree as
scanning it with every reserved-name entry removed, so no reserved file
ever becomes a child node — but the recursive aggregates do **not** filter
them: `countMarkdownFiles` and `estimateDirectoryWordCount` count a
reserved `.md` file like any other document (see the counterexample). -/
theorem scan_ignores_reserved_filenames (nm : String) (p : List String) (d : Nat) (lk : Bool)
    (entries : List FSEntry) :
    getDirectoryStructure nm p d (some (FSNode.dir lk entries)) =
      getDirectoryStructure nm p d
        (some (FSNode.dir lk (entries.filter (fun e => !isIgnored e.name)))) := by
  have hall :
      (entries.filter (fun e => !isIgnored e.name)).filter (fun e => !isIgnored e.name) =
        entries.filter (fun e => !isIgnored e.name) := by
    rw [List.filter_filter]
    exact List.filter_congr (fun e _ => by cases hig : isIgnored e.name <;> simp [hig])
  simp only [getDirectoryStructure, getDirectoryStructureNode]
  rw [hall, scanSubdirEntries_filter, scanFileChildren_filter]

/-- C2 counterexample: a directory holding only a generated `README.md`
scans to an empty node (the reserved name is excluded from the children),
yet its recursive document count is 1 and its recursive content volume is
3 — the reserved file does contribute to both aggregates, refuting the
claim. -/
theorem reserved_counted_in_aggregates_counterexample :
    (getDirectoryStructure "d" [] 0
        (some (FSNode.dir true [FSEntry.mk "README.md" true (FSNode.file 10 true)])) =
      Except.ok (DocNode.dir "d" [] 0 [])) ∧
    countMarkdownFiles
      (some (FSNode.dir true [FSEntry.mk "README.md" true (FSNode.file 10 true)])) = 1 ∧
    estimateDirectoryWordCount
      (some (FSNode.dir true [FSEntry.mk "README.md" true (FSNode.file 10 true)])) = 3 ∧
    (1 : Nat) ≠ 0 :=
  ⟨rfl, rfl, rfl, by decide⟩
